import Mathlib

/-!
Verification of the finite-element-analysis toolkit (constitutive_models.py,
operations.py, elements.py) against its natural-language specification.

The Python source is shallowly embedded: 3x3 matrices over the reals stand in
for the numpy arrays, `Real.log` for `math.log`, `Except` for raised
exceptions, and `Option` for a Python `None` return.  Modules of the
repository that are imported but not present under src (constants.py,
exceptions.py, materials.py) are modelled from the spec where noted.
-/

namespace FEA

/-- Modelled from the spec: materials.py is not under src; per the spec a
material record carries the two Lame-type constants `first_lame_parameter`
and `shear_modulus` consumed by the constitutive model. -/
structure Material where
  first_lame_parameter : ℝ
  shear_modulus : ℝ

abbrev Mat3 := Matrix (Fin 3) (Fin 3) ℝ

/-- operations.inverse_transpose: the inverse of the transpose of a matrix
(`numpy.linalg.inv(matrix.T)`). -/
noncomputable def inverse_transpose (matrix : Mat3) : Mat3 :=
  (matrix.transpose)⁻¹

/-- The `result[0:2, 0:2]` slicing used by the constitutive model when a
two-dimensional result is requested. -/
def topLeftBlock (m : Mat3) : Matrix (Fin 2) (Fin 2) ℝ :=
  m.submatrix Fin.castSucc Fin.castSucc

/-- Return type of `Neohookean.first_piola_kirchhoff_stress`, which returns a
2x2 matrix when `dimension == 2` and the full 3x3 matrix otherwise. -/
inductive StressResult where
  | three (m : Mat3)
  | two (m : Matrix (Fin 2) (Fin 2) ℝ)

/-- Neohookean.first_piola_kirchhoff_stress before the dimension dispatch:
`(lambda * log(det F) - mu) * inverse_transpose(F) + mu * F`.  The optional
numerical-differentiation self-check (tests.py) only verifies the value and
does not change it, so it is not modelled. -/
noncomputable def first_piola_kirchhoff_stress_3d (material : Material) (deformation_gradient : Mat3) : Mat3 :=
  (material.first_lame_parameter * Real.log deformation_gradient.det - material.shear_modulus)
      • inverse_transpose deformation_gradient
    + material.shear_modulus • deformation_gradient

/-- Neohookean.first_piola_kirchhoff_stress with the dimension dispatch of the
source: a 2x2 slice when `dimension == 2`, otherwise the full matrix. -/
noncomputable def first_piola_kirchhoff_stress (material : Material) (deformation_gradient : Mat3)
    (dimension : ℕ) : StressResult :=
  let result := first_piola_kirchhoff_stress_3d material deformation_gradient
  if dimension = 2 then StressResult.two (topLeftBlock result)
  else StressResult.three result

/-- Neohookean.strain_energy_density:
`lambda/2 * (log J)^2 - mu * log J + mu/2 * (trace(F^T F) - 3)` with
`J = det F`. -/
noncomputable def strain_energy_density (material : Material) (deformation_gradient : Mat3) : ℝ :=
  let J := deformation_gradient.det
  material.first_lame_parameter / 2 * (Real.log J) ^ 2
    - material.shear_modulus * Real.log J
    + material.shear_modulus / 2
      * (Matrix.trace (deformation_gradient.transpose * deformation_gradient) - 3)

/-- Neohookean.tangent_moduli (full 3x3x3x3 tensor, the `dimension=3` path):
`C[i][j][k][l] = lambda*Finv[l][k]*Finv[j][i]
  - (lambda*log J - mu)*Finv[j][k]*Finv[l][i] + mu*delta_ik*delta_jl`. -/
noncomputable def tangent_moduli_3d (material : Material) (deformation_gradient : Mat3) :
    Fin 3 → Fin 3 → Fin 3 → Fin 3 → ℝ :=
  fun i j k l =>
    let J := deformation_gradient.det
    let F_inverse := deformation_gradient⁻¹
    material.first_lame_parameter * F_inverse l k * F_inverse j i
      - (material.first_lame_parameter * Real.log J - material.shear_modulus)
        * F_inverse j k * F_inverse l i
      + (if i = k ∧ j = l then material.shear_modulus else 0)

/-- Neohookean.tangent_moduli_two_dimensions: plane-stress condensation
`Chat[a][b][c][d] = C[a][b][c][d] - C[a][b][2][2] * C[2][2][c][d] / C[2][2][2][2]`
for a,b,c,d in {0,1}. -/
noncomputable def tangent_moduli_two_dimensions (tangent_moduli : Fin 3 → Fin 3 → Fin 3 → Fin 3 → ℝ) :
    Fin 2 → Fin 2 → Fin 2 → Fin 2 → ℝ :=
  fun a b c d =>
    tangent_moduli a.castSucc b.castSucc c.castSucc d.castSucc
      - tangent_moduli a.castSucc b.castSucc 2 2
        * tangent_moduli 2 2 c.castSucc d.castSucc / tangent_moduli 2 2 2 2

/-- C2: for every material and every deformation gradient with positive
determinant, the first Piola-Kirchhoff stress is
`(lambda * ln(det F) - mu) * F^(-T) + mu * F` when `dimension = 3`, and
exactly the top-left 2x2 block of that same matrix when `dimension = 2`. -/
theorem first_piola_kirchhoff_stress_spec (material : Material) (F : Mat3)
    (hdet : 0 < F.det) :
    first_piola_kirchhoff_stress material F 3 =
      StressResult.three
        ((material.first_lame_parameter * Real.log F.det - material.shear_modulus)
            • (F⁻¹).transpose + material.shear_modulus • F) ∧
    first_piola_kirchhoff_stress material F 2 =
      StressResult.two
        (topLeftBlock
          ((material.first_lame_parameter * Real.log F.det - material.shear_modulus)
              • (F⁻¹).transpose + material.shear_modulus • F)) := by
  have hswap : (F⁻¹).transpose = (F.transpose)⁻¹ := Matrix.transpose_nonsing_inv F
  constructor
  · simp [first_piola_kirchhoff_stress, first_piola_kirchhoff_stress_3d,
      inverse_transpose, hswap]
  · simp [first_piola_kirchhoff_stress, first_piola_kirchhoff_stress_3d,
      inverse_transpose, hswap]

/-- Witness for C2 at the identity deformation gradient. -/
theorem first_piola_kirchhoff_stress_spec_witness :
    0 < (1 : Mat3).det ∧
    (first_piola_kirchhoff_stress ⟨5, 3⟩ (1 : Mat3) 3 =
      StressResult.three
        (((5 : ℝ) * Real.log (1 : Mat3).det - 3) • ((1 : Mat3)⁻¹).transpose
          + (3 : ℝ) • (1 : Mat3)) ∧
    first_piola_kirchhoff_stress ⟨5, 3⟩ (1 : Mat3) 2 =
      StressResult.two
        (topLeftBlock
          (((5 : ℝ) * Real.log (1 : Mat3).det - 3) • ((1 : Mat3)⁻¹).transpose
            + (3 : ℝ) • (1 : Mat3)))) :=
  ⟨by simp, first_piola_kirchhoff_stress_spec ⟨5, 3⟩ 1 (by simp)⟩

/-- C3: for every material, the strain energy density at the identity
deformation gradient is exactly zero. -/
theorem strain_energy_density_identity (material : Material) :
    strain_energy_density material (1 : Mat3) = 0 := by
  simp [strain_energy_density]

/-- C4: on a tensor whose 33-coupling rows and columns vanish and whose
2222 component is nonzero, the plane-stress condensation is the identity on
the top 2x2x2x2 block. -/
theorem tangent_moduli_two_dimensions_idempotent
    (C : Fin 3 → Fin 3 → Fin 3 → Fin 3 → ℝ)
    (hrow : ∀ a b : Fin 2, C a.castSucc b.castSucc 2 2 = 0)
    (hcol : ∀ c d : Fin 2, C 2 2 c.castSucc d.castSucc = 0)
    (hnz : C 2 2 2 2 ≠ 0) :
    ∀ a b c d : Fin 2,
      tangent_moduli_two_dimensions C a b c d = C a.castSucc b.castSucc c.castSucc d.castSucc := by
  intro a b c d
  simp [tangent_moduli_two_dimensions, hrow a b, hcol c d]

/-- A concrete already-condensed tensor used to witness C4: zero everywhere
except a nonzero 2222 component. -/
def condensedWitnessTensor : Fin 3 → Fin 3 → Fin 3 → Fin 3 → ℝ :=
  fun i j k l => if i = 2 ∧ j = 2 ∧ k = 2 ∧ l = 2 then 1 else 0

/-- Witness for C4 on the concrete tensor at indices (0,0,0,0). -/
theorem tangent_moduli_two_dimensions_idempotent_witness :
    tangent_moduli_two_dimensions condensedWitnessTensor 0 0 0 0 =
      condensedWitnessTensor (Fin.castSucc 0) (Fin.castSucc 0) (Fin.castSucc 0)
        (Fin.castSucc 0) :=
  tangent_moduli_two_dimensions_idempotent condensedWitnessTensor
    (fun a b => by fin_cases a <;> fin_cases b <;> simp [condensedWitnessTensor])
    (fun c d => by fin_cases c <;> fin_cases d <;> simp [condensedWitnessTensor])
    (by simp [condensedWitnessTensor]) 0 0 0 0

/-- Modelled from the spec: exceptions.py is not under src; per the spec the
iteration-limit error carries the iterations attempted, the last residual,
and the tolerance. -/
structure NewtonMethodMaxIterationsExceededError where
  iterations : ℕ
  error : ℝ
  tolerance : ℝ

/-- The in-place assignment `deformation_gradient[2][2] = stretch_ratio` of
the Newton solve: all other entries are untouched. -/
noncomputable def set33 (F : Mat3) (s : ℝ) : Mat3 :=
  fun i j => if i = 2 ∧ j = 2 then s else F i j

/-- The adjustment applied to the updated stretch ratio in
newton_method_thickness_stretch_ratio:
`if stretch_ratio < 0: stretch_ratio = 1e-6`. -/
noncomputable def clamp_stretch (s : ℝ) : ℝ :=
  if s < 0 then 1e-6 else s

/-- Loop body of operations.newton_method_thickness_stretch_ratio, with
`remaining = max_iterations - current_iteration` (the loop raises when
`current_iteration == max_iterations`).  The tolerance is the constant
`constants.NEWTON_METHOD_TOLERANCE`; constants.py is not under src and the
spec leaves its literal value open, so it is an explicit parameter here.
The result carries both the returned stretch ratio and the final state of
the mutated `deformation_gradient` argument. -/
noncomputable def newton_method_aux (material : Material) (tolerance : ℝ) (max_iterations : ℕ) :
    ℕ → ℝ → Mat3 → Except NewtonMethodMaxIterationsExceededError (ℝ × Mat3)
  | 0, stretch_ratio, deformation_gradient =>
    if |0 - first_piola_kirchhoff_stress_3d material (set33 deformation_gradient stretch_ratio) 2 2|
        < tolerance then
      Except.ok (stretch_ratio, set33 deformation_gradient stretch_ratio)
    else
      Except.error
        ⟨max_iterations,
         |0 - first_piola_kirchhoff_stress_3d material (set33 deformation_gradient stretch_ratio) 2 2|,
         tolerance⟩
  | r + 1, stretch_ratio, deformation_gradient =>
    if |0 - first_piola_kirchhoff_stress_3d material (set33 deformation_gradient stretch_ratio) 2 2|
        < tolerance then
      Except.ok (stretch_ratio, set33 deformation_gradient stretch_ratio)
    else
      newton_method_aux material tolerance max_iterations r
        (clamp_stretch (stretch_ratio
          + -(1 / tangent_moduli_3d material (set33 deformation_gradient stretch_ratio) 2 2 2 2)
            * first_piola_kirchhoff_stress_3d material (set33 deformation_gradient stretch_ratio) 2 2))
        (set33 deformation_gradient stretch_ratio)

/-- operations.newton_method_thickness_stretch_ratio: initial guess 1,
iteration counter starting at 0 with the limit checked against
`max_iterations`. -/
noncomputable def newton_method_thickness_stretch_ratio (material : Material) (tolerance : ℝ)
    (deformation_gradient : Mat3) (max_iterations : ℕ := 15) :
    Except NewtonMethodMaxIterationsExceededError (ℝ × Mat3) :=
  newton_method_aux material tolerance max_iterations max_iterations 1 deformation_gradient

/-- operations.generate_random_deformation_gradient as a function of the
accepted uniform sample U: the rejection loop `while det < 0` exits exactly
when `det(I + U) < 0` fails, and the flag-dependent restructuring then
overwrites entries of `I + U`. -/
noncomputable def generate_random_deformation_gradient (U : Mat3)
    (plane_stress uniaxial equibiaxial : Bool) : Mat3 :=
  let random_deformation : Mat3 := 1 + U
  if plane_stress then
    if uniaxial then
      !![random_deformation 0 0, 0, 0; 0, 1, 0; 0, 0, 1]
    else if equibiaxial then
      !![random_deformation 0 0, 0, 0; 0, random_deformation 0 0, 0; 0, 0, 1]
    else
      !![random_deformation 0 0, random_deformation 0 1, 0;
         random_deformation 1 0, random_deformation 1 1, 0;
         0, 0, 1]
  else random_deformation

/-- Exit condition of the rejection-sampling loop in
generate_random_deformation_gradient: the loop repeats while `det < 0`, so
a sample U is accepted exactly when `det(I + U) < 0` is false. -/
def sampleAccepted (U : Mat3) : Prop := ¬ ((1 + U).det < 0)

lemma set33_set33 (F : Mat3) (s t : ℝ) : set33 (set33 F s) t = set33 F t := by
  funext i j
  by_cases h : i = 2 ∧ j = 2 <;> simp [set33, h]

/-- Invariant of the Newton loop of
operations.newton_method_thickness_stretch_ratio: a returned pair is the
converged stretch ratio together with the input gradient updated at entry
(2,2), and a raised error carries the iteration limit, the tolerance, and a
residual evaluated at some trial stretch ratio. -/
lemma newton_method_aux_spec (material : Material) (tolerance : ℝ) (max_iterations : ℕ) :
    ∀ (remaining : ℕ) (s : ℝ) (F : Mat3),
      (∀ p : ℝ × Mat3,
        newton_method_aux material tolerance max_iterations remaining s F = Except.ok p →
          p.2 = set33 F p.1 ∧
          |first_piola_kirchhoff_stress_3d material (set33 F p.1) 2 2| < tolerance) ∧
      (∀ e : NewtonMethodMaxIterationsExceededError,
        newton_method_aux material tolerance max_iterations remaining s F = Except.error e →
          e.iterations = max_iterations ∧ e.tolerance = tolerance ∧
          ∃ s' : ℝ,
            e.error = |0 - first_piola_kirchhoff_stress_3d material (set33 F s') 2 2|) := by
  intro remaining
  induction remaining with
  | zero =>
    intro s F
    constructor
    · intro p hp
      rw [newton_method_aux] at hp
      split_ifs at hp with h
      all_goals first
        | (injection hp with h2
           subst h2
           rw [zero_sub, abs_neg] at h
           exact ⟨rfl, h⟩)
        | exact Except.noConfusion hp
    · intro e he
      rw [newton_method_aux] at he
      split_ifs at he with h
      all_goals first
        | (injection he with h2
           subst h2
           exact ⟨rfl, rfl, s, rfl⟩)
        | exact Except.noConfusion he
  | succ r ih =>
    intro s F
    constructor
    · intro p hp
      rw [newton_method_aux] at hp
      split_ifs at hp with h
      all_goals first
        | (injection hp with h2
           subst h2
           rw [zero_sub, abs_neg] at h
           exact ⟨rfl, h⟩)
        | (obtain ⟨h1, h2⟩ := (ih _ (set33 F s)).1 p hp
           rw [set33_set33] at h1 h2
           exact ⟨h1, h2⟩)
    · intro e he
      rw [newton_method_aux] at he
      split_ifs at he with h
      all_goals first
        | exact Except.noConfusion he
        | (obtain ⟨h1, h2, s', h3⟩ := (ih _ (set33 F s)).2 e he
           rw [set33_set33] at h3
           exact ⟨h1, h2, s', h3⟩)

/-- C10: after a successful call, the deformation-gradient argument has been
mutated in place: its (2,2) entry equals the returned stretch ratio and every
other entry is exactly what the caller passed in. -/
theorem newton_method_thickness_stretch_ratio_mutation (material : Material) (tolerance : ℝ)
    (F : Mat3) (max_iterations : ℕ) (s : ℝ) (F' : Mat3)
    (h : newton_method_thickness_stretch_ratio material tolerance F max_iterations =
      Except.ok (s, F')) :
    F' 2 2 = s ∧ ∀ i j : Fin 3, ¬(i = 2 ∧ j = 2) → F' i j = F i j := by
  obtain ⟨h1, h2⟩ :=
    (newton_method_aux_spec material tolerance max_iterations max_iterations 1 F).1 (s, F') h
  constructor
  · rw [show F' = set33 F s from h1]
    simp [set33]
  · intro i j hij
    rw [show F' = set33 F s from h1]
    simp [set33, hij]

/-- A concrete converging run of the Newton solve: with both material
constants zero the stress vanishes identically, so the first trial converges
for any positive tolerance. -/
lemma newton_converges_zero_material :
    newton_method_thickness_stretch_ratio ⟨0, 0⟩ 1 (1 : Mat3) 0 =
      Except.ok (1, set33 (1 : Mat3) 1) := by
  rw [newton_method_thickness_stretch_ratio, newton_method_aux, if_pos]
  simp [first_piola_kirchhoff_stress_3d]

/-- Witness for C10 on the concrete converging run. -/
theorem newton_method_thickness_stretch_ratio_mutation_witness :
    (set33 (1 : Mat3) 1) 2 2 = 1 ∧
    ∀ i j : Fin 3, ¬(i = 2 ∧ j = 2) → (set33 (1 : Mat3) 1) i j = (1 : Mat3) i j :=
  newton_method_thickness_stretch_ratio_mutation ⟨0, 0⟩ 1 1 0 1 (set33 (1 : Mat3) 1)
    newton_converges_zero_material

/-- C5 counterexample: an updated stretch ratio of exactly zero is
non-positive, yet the adjustment of the source leaves it at zero rather than
setting it to 1e-6. -/
theorem clamp_stretch_zero_not_clamped :
    (0 : ℝ) ≤ 0 ∧ clamp_stretch 0 = 0 ∧ clamp_stretch 0 ≠ 1e-6 := by
  refine ⟨le_refl 0, ?_, ?_⟩
  · simp [clamp_stretch]
  · simp only [clamp_stretch, lt_self_iff_false, if_false]
    norm_num

/-- C5 amended: the Newton update is set to 1e-6 exactly when it is strictly
negative; a non-negative update (including exactly zero) is kept unchanged,
so the next trial value is positive unless the update is exactly zero. -/
theorem clamp_stretch_spec (s : ℝ) :
    (s < 0 → clamp_stretch s = 1e-6) ∧ (0 ≤ s → clamp_stretch s = s) := by
  constructor
  · intro h
    simp [clamp_stretch, h]
  · intro h
    simp [clamp_stretch, not_lt.mpr h]

/-- Witness for C5 (amended) at a strictly negative update. -/
theorem clamp_stretch_spec_witness : clamp_stretch (-1) = 1e-6 :=
  (clamp_stretch_spec (-1)).1 (by norm_num)

/-- The accepted uniform sample exhibiting the determinant-zero boundary of
the rejection loop: every entry lies in [0,1). -/
noncomputable def singularSample : Mat3 :=
  !![0, 0, 3/4; 0, 0, 3/4; 3/4, 3/4, 1/8]

/-- C6: the rejection loop accepts the sample `singularSample` (its
determinant is not negative), yet without plane-stress restructuring the
returned deformation gradient is singular: its determinant is exactly zero,
not strictly positive. -/
theorem generate_random_deformation_gradient_singular :
    (∀ i j : Fin 3, 0 ≤ singularSample i j ∧ singularSample i j < 1) ∧
    sampleAccepted singularSample ∧
    (generate_random_deformation_gradient singularSample false false false).det = 0 := by
  have hdet : ((1 : Mat3) + singularSample).det = 0 := by
    simp [singularSample, Matrix.det_fin_three, Matrix.add_apply, Matrix.one_apply]
    norm_num
  refine ⟨?_, ?_, ?_⟩
  · intro i j
    fin_cases i <;> fin_cases j <;> norm_num [singularSample]
  · rw [sampleAccepted, hdet]
    exact lt_irrefl 0
  · simpa [generate_random_deformation_gradient] using hdet

/-- Euclidean norm of a 3-vector, as `numpy.linalg.norm` computes it. -/
noncomputable def norm3 (v : Fin 3 → ℝ) : ℝ :=
  Real.sqrt (v 0 ^ 2 + v 1 ^ 2 + v 2 ^ 2)

/-- Componentwise sum of the nodes' current positions: the accumulation loop
of BaseElement.calculate_external_force_array with `degrees_of_freedom = 3`
(the membrane elements carry three degrees of freedom per node). -/
def sumPositions (nodes : List (Fin 3 → ℝ)) : Fin 3 → ℝ :=
  fun i => (nodes.map (fun p => p i)).sum

/-- Balloon-pressure branch of BaseElement.calculate_external_force_array:
`load_position_vector = (1/3) * sum of node positions` (the source multiplies
by 1/3 regardless of the node count), normalized to a unit vector, with the
load replaced by `current_load[2] * unit vector`. -/
noncomputable def balloon_current_load (nodes : List (Fin 3 → ℝ)) (current_load : Fin 3 → ℝ) :
    Fin 3 → ℝ :=
  let v : Fin 3 → ℝ := fun i => 1 / 3 * sumPositions nodes i
  fun i => current_load 2 * (v i / norm3 v)

/-- The C7 claim side, following the spec's words: the element centroid as
the MEAN of the nodes' current positions, normalized to a unit vector and
scaled by the z-component of the load. -/
noncomputable def balloon_current_load_centroid (nodes : List (Fin 3 → ℝ))
    (current_load : Fin 3 → ℝ) : Fin 3 → ℝ :=
  let c : Fin 3 → ℝ := fun i => 1 / (nodes.length : ℝ) * sumPositions nodes i
  fun i => current_load 2 * (c i / norm3 c)

lemma norm3_scale (c : ℝ) (v : Fin 3 → ℝ) :
    norm3 (fun i => c * v i) = |c| * norm3 v := by
  have h : (c * v 0) ^ 2 + (c * v 1) ^ 2 + (c * v 2) ^ 2
      = c ^ 2 * (v 0 ^ 2 + v 1 ^ 2 + v 2 ^ 2) := by ring
  rw [norm3, norm3, h, Real.sqrt_mul (sq_nonneg c), Real.sqrt_sq_eq_abs]

lemma norm3_pos (v : Fin 3 → ℝ) (hv : v ≠ 0) : 0 < norm3 v := by
  apply Real.sqrt_pos.mpr
  by_contra hle
  push_neg at hle
  have e0 : v 0 ^ 2 = 0 :=
    le_antisymm (by nlinarith [sq_nonneg (v 1), sq_nonneg (v 2)]) (sq_nonneg _)
  have e1 : v 1 ^ 2 = 0 :=
    le_antisymm (by nlinarith [sq_nonneg (v 0), sq_nonneg (v 2)]) (sq_nonneg _)
  have e2 : v 2 ^ 2 = 0 :=
    le_antisymm (by nlinarith [sq_nonneg (v 0), sq_nonneg (v 1)]) (sq_nonneg _)
  apply hv
  funext i
  show v i = (0 : Fin 3 → ℝ) i
  rw [Pi.zero_apply]
  fin_cases i
  · exact (pow_eq_zero_iff (two_ne_zero)).mp e0
  · exact (pow_eq_zero_iff (two_ne_zero)).mp e1
  · exact (pow_eq_zero_iff (two_ne_zero)).mp e2

/-- C7: for every element with at least one node whose summed current
position is nonzero, the balloon-pressure load of the source (which scales
the position sum by 1/3 whatever the node count) equals the load built from
the centroid in the spec's sense, the mean of the nodes' current positions,
normalized and scaled by the z-component of the load: the two normalized
directions coincide for both the 3-node and the 6-node element. -/
theorem balloon_load_direction (nodes : List (Fin 3 → ℝ)) (current_load : Fin 3 → ℝ)
    (hne : nodes ≠ []) (hS : sumPositions nodes ≠ 0) :
    balloon_current_load nodes current_load =
      balloon_current_load_centroid nodes current_load := by
  have hN : 0 < norm3 (sumPositions nodes) := norm3_pos _ hS
  have hn : (0 : ℝ) < (nodes.length : ℝ) := by
    exact_mod_cast List.length_pos.mpr hne
  funext i
  simp only [balloon_current_load, balloon_current_load_centroid]
  rw [norm3_scale, norm3_scale, abs_of_pos (by norm_num : (0:ℝ) < 1/3),
    abs_of_pos (by positivity : (0:ℝ) < 1 / (nodes.length : ℝ))]
  congr 1
  rw [mul_div_mul_left _ _ (by norm_num : (1:ℝ)/3 ≠ 0),
    mul_div_mul_left _ _ (by positivity : 1 / (nodes.length : ℝ) ≠ 0)]

/-- Witness for C7 on a one-node element at position (1,1,1). -/
theorem balloon_load_direction_witness :
    balloon_current_load [fun _ => 1] (fun _ => 1) =
      balloon_current_load_centroid [fun _ => 1] (fun _ => 1) :=
  balloon_load_direction [fun _ => 1] (fun _ => 1) (by simp)
    (by
      intro h
      have h0 := congrFun h 0
      simp [sumPositions] at h0)

/-- Modelled from the spec: exceptions.py is not under src; per the spec the
invalid-index errors carry the offending index and the valid count. -/
inductive ElementError where
  | invalidNode (node_index : ℕ) (node_quantity : ℕ)
  | invalidCoordinate (coordinate_index : ℕ) (coordinate_quantity : ℕ)
deriving DecidableEq

namespace TriangularLinearElement

/-- TriangularLinearElement.shape_functions.  In the source the out-of-range
branch constructs `exceptions.InvalidNodeError(...)` without `raise`, so the
Python function falls through and returns None: that branch is `.ok none`
here, a normal return carrying no value rather than a signaled failure. -/
noncomputable def shape_functions (node_index : ℕ) (position : ℝ × ℝ) :
    Except ElementError (Option ℝ) :=
  if node_index = 0 then Except.ok (some (1 - position.1 - position.2))
  else if node_index = 1 then Except.ok (some position.1)
  else if node_index = 2 then Except.ok (some position.2)
  else Except.ok none

/-- TriangularLinearElement.shape_function_derivatives: every out-of-range
branch of the source raises, modelled as `.error`. -/
noncomputable def shape_function_derivatives (node_index : ℕ) (position : ℝ × ℝ)
    (coordinate_index : ℕ) : Except ElementError ℝ :=
  if node_index = 0 then
    if coordinate_index = 0 then Except.ok (-1)
    else if coordinate_index = 1 then Except.ok (-1)
    else Except.error (ElementError.invalidCoordinate coordinate_index 2)
  else if node_index = 1 then
    if coordinate_index = 0 then Except.ok 1
    else if coordinate_index = 1 then Except.ok 0
    else Except.error (ElementError.invalidCoordinate coordinate_index 2)
  else if node_index = 2 then
    if coordinate_index = 0 then Except.ok 0
    else if coordinate_index = 1 then Except.ok 1
    else Except.error (ElementError.invalidCoordinate coordinate_index 2)
  else Except.error (ElementError.invalidNode node_index 3)

end TriangularLinearElement

namespace TriangularQuadraticElement

/-- Class attribute node_positions of the 6-node triangle:
corners and edge midpoints. -/
noncomputable def node_positions : Fin 6 → ℝ × ℝ :=
  ![(0, 0), (1, 0), (0, 1), (0.5, 0), (0.5, 0.5), (0, 0.5)]

/-- TriangularQuadraticElement.shape_functions.  As in the linear element,
the source constructs `exceptions.InvalidNodeError(...)` without `raise` in
the out-of-range branch, so that branch returns None, modelled `.ok none`. -/
noncomputable def shape_functions (node_index : ℕ) (position : ℝ × ℝ) :
    Except ElementError (Option ℝ) :=
  if node_index = 0 then
    Except.ok (some (2 * (1 - position.1 - position.2) * (0.5 - position.1 - position.2)))
  else if node_index = 1 then Except.ok (some (2 * position.1 * (position.1 - 0.5)))
  else if node_index = 2 then Except.ok (some (2 * position.2 * (position.2 - 0.5)))
  else if node_index = 3 then Except.ok (some (4 * position.1 * (1 - position.1 - position.2)))
  else if node_index = 4 then Except.ok (some (4 * position.1 * position.2))
  else if node_index = 5 then Except.ok (some (4 * position.2 * (1 - position.1 - position.2)))
  else Except.ok none

/-- TriangularQuadraticElement.shape_function_derivatives: every
out-of-range branch of the source raises, modelled as `.error`. -/
noncomputable def shape_function_derivatives (node_index : ℕ) (position : ℝ × ℝ)
    (coordinate_index : ℕ) : Except ElementError ℝ :=
  if node_index = 0 then
    if coordinate_index = 0 then Except.ok (4 * position.1 + 4 * position.2 - 3)
    else if coordinate_index = 1 then Except.ok (4 * position.1 + 4 * position.2 - 3)
    else Except.error (ElementError.invalidCoordinate coordinate_index 2)
  else if node_index = 1 then
    if coordinate_index = 0 then Except.ok (4 * position.1 - 1)
    else if coordinate_index = 1 then Except.ok 0
    else Except.error (ElementError.invalidCoordinate coordinate_index 2)
  else if node_index = 2 then
    if coordinate_index = 0 then Except.ok 0
    else if coordinate_index = 1 then Except.ok (4 * position.2 - 1)
    else Except.error (ElementError.invalidCoordinate coordinate_index 2)
  else if node_index = 3 then
    if coordinate_index = 0 then Except.ok (-8 * position.1 - 4 * position.2 + 4)
    else if coordinate_index = 1 then Except.ok (-4 * position.1)
    else Except.error (ElementError.invalidCoordinate coordinate_index 2)
  else if node_index = 4 then
    if coordinate_index = 0 then Except.ok (4 * position.2)
    else if coordinate_index = 1 then Except.ok (4 * position.1)
    else Except.error (ElementError.invalidCoordinate coordinate_index 2)
  else if node_index = 5 then
    if coordinate_index = 0 then Except.ok (-4 * position.2)
    else if coordinate_index = 1 then Except.ok (-4 * position.1 - 8 * position.2 + 4)
    else Except.error (ElementError.invalidCoordinate coordinate_index 2)
  else Except.error (ElementError.invalidNode node_index 6)

end TriangularQuadraticElement

/-- C8 counterexample: the shape-function value lookups of both triangular
element types return normally (a None value) on an out-of-range node index
instead of surfacing the constructed invalid-node error as a failure. -/
theorem shape_functions_out_of_range_not_signaled :
    TriangularLinearElement.shape_functions 3 (0, 0) = Except.ok none ∧
    TriangularQuadraticElement.shape_functions 6 (0, 0) = Except.ok none := by
  constructor <;> rfl

/-- C8 amended: for both element types the shape-function-derivative lookup
signals the invalid-node error for node indices outside range and the
invalid-coordinate error for coordinate indices outside range, while the
shape-function value lookup returns None without signaling on an
out-of-range node index. -/
theorem shape_function_lookup_ranges (node_index coordinate_index : ℕ) (position : ℝ × ℝ) :
    (3 ≤ node_index →
      TriangularLinearElement.shape_functions node_index position = Except.ok none ∧
      TriangularLinearElement.shape_function_derivatives node_index position coordinate_index =
        Except.error (ElementError.invalidNode node_index 3)) ∧
    (node_index < 3 → 2 ≤ coordinate_index →
      TriangularLinearElement.shape_function_derivatives node_index position coordinate_index =
        Except.error (ElementError.invalidCoordinate coordinate_index 2)) ∧
    (6 ≤ node_index →
      TriangularQuadraticElement.shape_functions node_index position = Except.ok none ∧
      TriangularQuadraticElement.shape_function_derivatives node_index position coordinate_index =
        Except.error (ElementError.invalidNode node_index 6)) ∧
    (node_index < 6 → 2 ≤ coordinate_index →
      TriangularQuadraticElement.shape_function_derivatives node_index position coordinate_index =
        Except.error (ElementError.invalidCoordinate coordinate_index 2)) := by
  refine ⟨?_, ?_, ?_, ?_⟩
  · intro h
    have h0 : node_index ≠ 0 := by omega
    have h1 : node_index ≠ 1 := by omega
    have h2 : node_index ≠ 2 := by omega
    exact ⟨by simp [TriangularLinearElement.shape_functions, h0, h1, h2],
      by simp [TriangularLinearElement.shape_function_derivatives, h0, h1, h2]⟩
  · intro h hc
    have c0 : coordinate_index ≠ 0 := by omega
    have c1 : coordinate_index ≠ 1 := by omega
    interval_cases node_index <;>
      simp [TriangularLinearElement.shape_function_derivatives, c0, c1]
  · intro h
    have h0 : node_index ≠ 0 := by omega
    have h1 : node_index ≠ 1 := by omega
    have h2 : node_index ≠ 2 := by omega
    have h3 : node_index ≠ 3 := by omega
    have h4 : node_index ≠ 4 := by omega
    have h5 : node_index ≠ 5 := by omega
    exact ⟨by simp [TriangularQuadraticElement.shape_functions, h0, h1, h2, h3, h4, h5],
      by simp [TriangularQuadraticElement.shape_function_derivatives, h0, h1, h2, h3, h4, h5]⟩
  · intro h hc
    have c0 : coordinate_index ≠ 0 := by omega
    have c1 : coordinate_index ≠ 1 := by omega
    interval_cases node_index <;>
      simp [TriangularQuadraticElement.shape_function_derivatives, c0, c1]

/-- Witness for C8 (amended) at node index 3 of the linear triangle. -/
theorem shape_function_lookup_ranges_witness :
    TriangularLinearElement.shape_functions 3 (0, 0) = Except.ok none ∧
    TriangularLinearElement.shape_function_derivatives 3 (0, 0) 2 =
      Except.error (ElementError.invalidNode 3 3) :=
  (shape_function_lookup_ranges 3 2 (0, 0)).1 (le_refl 3)

/-- C9: the three linear-triangle shape functions sum to one at every point,
and the six quadratic-triangle shape functions satisfy the Kronecker-delta
property at the nodal positions. -/
theorem shape_function_properties :
    (∀ ξ η : ℝ,
      TriangularLinearElement.shape_functions 0 (ξ, η) = Except.ok (some (1 - ξ - η)) ∧
      TriangularLinearElement.shape_functions 1 (ξ, η) = Except.ok (some ξ) ∧
      TriangularLinearElement.shape_functions 2 (ξ, η) = Except.ok (some η) ∧
      (1 - ξ - η) + ξ + η = 1) ∧
    (∀ i j : Fin 6,
      TriangularQuadraticElement.shape_functions i.val
          (TriangularQuadraticElement.node_positions j) =
        Except.ok (some (if i = j then 1 else 0))) := by
  constructor
  · intro ξ η
    exact ⟨rfl, rfl, rfl, by ring⟩
  · intro i j
    fin_cases i <;> fin_cases j <;>
      norm_num [TriangularQuadraticElement.shape_functions,
        TriangularQuadraticElement.node_positions, Fin.ext_iff]

end FEA
